import Mathlib

/-!
Formal model of the prediction pipeline of app_beautiful_fixed_v2.py
(class ChempropBeautifulGUI): featurization of SMILES strings with the
fallback chain of run_prediction, inference, output-value extraction
(_extract_prediction_value), the per-item batch loop, the history log
(add_to_history, clear_history, update_history_display, export_history)
and the single-molecule path (predict_single_molecule, unload_model).

External library calls (chemprop, rdkit, torch, lightning, pandas) are
modelled by their observable behaviour at the call sites: each input
string carries the abstract outcome of the two parsers the code invokes,
and a loaded model is a function from a constructed datapoint to either
an inference exception or a raw output value.
-/

/-- Outcome of the call data.MoleculeDatapoint.from_smi(smiles) on one
input string: success, a TypeError (the only exception class the fallback
chain in run_prediction lines 797-811 catches), or any other exception
(for example the parse failure rdkit raises on an invalid SMILES). -/
inductive FeatOutcome
  | ok
  | typeErr
  | parseErr
deriving DecidableEq, Inhabited

/-- Abstract behaviour of one raw molecule input string: what from_smi
does with it, and whether Chem.MolFromSmiles returns a molecule
(rdkitOk false means the string cannot be parsed into a molecular
graph). -/
structure Smiles where
  fromSmi : FeatOutcome
  rdkitOk : Bool
deriving DecidableEq, Inhabited

/-- The datapoint placed into the MoleculeDataset, tagged by which of the
three construction strategies of run_prediction lines 797-811 produced
it: the normal from_smi path, the rdkit MolFromSmiles path, or the final
bare-except path that forces dp.smiles = smiles on a blank datapoint. -/
inductive Datapoint
  | fromSmi (s : Smiles)
  | fromMol (s : Smiles)
  | forced (s : Smiles)
deriving DecidableEq, Inhabited

/-- One element of a python list or tuple handed to float(): either a
numeric value or something float() raises on. -/
inductive PyElem
  | num (v : Rat)
  | bad
deriving DecidableEq, Inhabited

/-- Shape variants of the value pred that _extract_prediction_value
receives (lines 736-756): a 1-D torch tensor, a python list or tuple, a
numpy array read through pred.flat, a value float() converts directly, or
a value float() raises on.  Scores are modelled as rationals. -/
inductive RawOutput
  | tensor (vals : List Rat)
  | pyseq (vals : List PyElem)
  | ndarray (vals : List Rat)
  | pyfloat (v : Rat)
  | nonconvertible
deriving DecidableEq, Inhabited

/-- The two exception groups a single prediction can surface to its
top-level handler: featurization exceptions and inference exceptions. -/
inductive PipelineError
  | featurizationExc
  | inferenceExc
deriving DecidableEq, Inhabited

/-- A loaded model together with the trainer.predict plus np.concatenate
step: from a constructed datapoint to either an inference-stage exception
or the raw output value handed to _extract_prediction_value. -/
abbrev ModelHandle := Datapoint → Except Unit RawOutput

/-- The value stored under the key prediction of one batch record: a
numeric score, or the literal ERROR marker written by the per-item
exception handler of run_prediction lines 842-850. -/
inductive PredValue
  | score (v : Rat)
  | error
deriving DecidableEq, Inhabited

/-- One record of the predictions list built by run_prediction lines
830-849: smiles, prediction, confidence and the is_antibiotic flag (the
herb_type display string is derived from is_antibiotic and omitted). -/
structure PredRecord where
  smiles : Smiles
  prediction : PredValue
  confidence : Rat
  is_antibiotic : Bool
deriving DecidableEq, Inhabited

/-- One entry of self.prediction_history as built by add_to_history
lines 936-944: timestamp (modelled as a monotone counter standing for
pd.Timestamp.now), smiles, prediction, confidence. -/
structure HistoryEntry where
  timestamp : Nat
  smiles : Smiles
  prediction : PredValue
  confidence : Rat
deriving DecidableEq, Inhabited

/-- The mutable state of the GUI object that the core operations touch:
self.model (None or a loaded handle), self.prediction_history, and the
clock supplying timestamps. -/
structure AppState where
  model : Option ModelHandle
  history : List HistoryEntry
  clock : Nat

/-- _extract_prediction_value, lines 736-756.  Every failure inside the
try block (empty tensor, empty or non-numeric first sequence element,
empty numpy array, float() raising) is caught by the blanket except,
which logs a warning and returns the plain default 0.5. -/
def extract_prediction_value : RawOutput → Rat
  | RawOutput.tensor [] => 1/2
  | RawOutput.tensor (v :: _) => v
  | RawOutput.pyseq [] => 1/2
  | RawOutput.pyseq (PyElem.num v :: _) => v
  | RawOutput.pyseq (PyElem.bad :: _) => 1/2
  | RawOutput.ndarray [] => 1/2
  | RawOutput.ndarray (v :: _) => v
  | RawOutput.pyfloat v => v
  | RawOutput.nonconvertible => 1/2

/-- Whether the try block of _extract_prediction_value raises, that is,
whether the except branch (log a warning, return the default 0.5) runs. -/
def extract_fails : RawOutput → Bool
  | RawOutput.tensor [] => true
  | RawOutput.pyseq [] => true
  | RawOutput.pyseq (PyElem.bad :: _) => true
  | RawOutput.ndarray [] => true
  | RawOutput.nonconvertible => true
  | _ => false

/-- Datapoint construction of the batch loop, run_prediction lines
797-811.  The from_smi attempt is wrapped in try/except TypeError; inside
that handler a second try parses with rdkit, and its bare except handler
forces the raw string onto a blank datapoint, so a string no parser
accepts still yields a datapoint.  Every non-TypeError exception from
from_smi escapes to the per-item handler, modelled as Except.error. -/
def build_datapoint_batch (s : Smiles) : Except PipelineError Datapoint :=
  match s.fromSmi with
  | FeatOutcome.ok => Except.ok (Datapoint.fromSmi s)
  | FeatOutcome.typeErr =>
      if s.rdkitOk then Except.ok (Datapoint.fromMol s)
      else Except.ok (Datapoint.forced s)
  | FeatOutcome.parseErr => Except.error PipelineError.featurizationExc

/-- Datapoint construction of predict_single_molecule, lines 692-694:
only the from_smi path exists (the fallback chain is commented out), so
every exception from from_smi escapes to the top-level handler. -/
def build_datapoint_single (s : Smiles) : Except PipelineError Datapoint :=
  match s.fromSmi with
  | FeatOutcome.ok => Except.ok (Datapoint.fromSmi s)
  | FeatOutcome.typeErr => Except.error PipelineError.featurizationExc
  | FeatOutcome.parseErr => Except.error PipelineError.featurizationExc

/-- The record the per-item exception handler of run_prediction lines
843-849 appends: prediction ERROR, confidence 0.0, is_antibiotic False. -/
def error_record (s : Smiles) : PredRecord :=
  { smiles := s, prediction := PredValue.error, confidence := 0,
    is_antibiotic := false }

/-- One iteration of the batch loop of run_prediction, lines 791-850:
build the datapoint, run inference, extract the value, classify at the
0.5 threshold and record confidence 0.95; any exception from the
datapoint construction or the inference stage is caught by the per-item
handler and becomes the ERROR record. -/
def predict_item (m : ModelHandle) (s : Smiles) : PredRecord :=
  match build_datapoint_batch s with
  | Except.error _ => error_record s
  | Except.ok dp =>
      match m dp with
      | Except.error _ => error_record s
      | Except.ok raw =>
          let v := extract_prediction_value raw
          { smiles := s, prediction := PredValue.score v, confidence := 95/100,
            is_antibiotic := decide (v > 1/2) }

/-- Whether the stages inside the per-item try block raise for this item
(datapoint construction escaping, or the inference stage raising). -/
def item_fails (m : ModelHandle) (s : Smiles) : Bool :=
  match build_datapoint_batch s with
  | Except.error _ => true
  | Except.ok dp =>
      match m dp with
      | Except.error _ => true
      | Except.ok _ => false

/-- The predictions list of run_prediction: the loop body applied to each
input string in order, one appended record per iteration. -/
def run_prediction_core (m : ModelHandle) (L : List Smiles) : List PredRecord :=
  L.map (predict_item m)

/-- add_to_history, lines 936-947: append one immutable entry stamped
with the current clock (pd.Timestamp.now) to self.prediction_history. -/
def add_to_history (st : AppState) (s : Smiles) (pred : PredValue) (conf : Rat) :
    AppState :=
  { st with
    history := st.history ++
      [{ timestamp := st.clock, smiles := s, prediction := pred, confidence := conf }],
    clock := st.clock + 1 }

/-- Whether a batch record passes the guard of run_prediction line 857,
prediction different from the ERROR marker. -/
def is_success_record (p : PredRecord) : Bool :=
  decide (p.prediction ≠ PredValue.error)

/-- The history-append loop of run_prediction lines 856-858: for each
record whose prediction is not ERROR, call add_to_history with the
record fields. -/
def append_success_records (st : AppState) : List PredRecord → AppState
  | [] => st
  | p :: ps =>
      if is_success_record p then
        append_success_records (add_to_history st p.smiles p.prediction p.confidence) ps
      else
        append_success_records st ps

/-- The batch operation of run_prediction from the smiles list on: run
the per-item loop, then append every successful record to the history.
Returns the new state and the predictions list. -/
def run_prediction (m : ModelHandle) (st : AppState) (L : List Smiles) :
    AppState × List PredRecord :=
  (append_success_records st (run_prediction_core m L), run_prediction_core m L)

/-- The raw input of the single-molecule path after
self.smiles_input.text().strip(): either empty, or a molecule string. -/
inductive InputString
  | blank
  | mol (s : Smiles)
deriving DecidableEq, Inhabited

/-- Observable outcome of predict_single_molecule: the empty-input
warning dialog, the model-not-loaded warning dialog, the top-level
exception dialog, or a displayed result with score and threshold label. -/
inductive SingleOutcome
  | emptyInputWarning
  | modelNotLoaded
  | errorDialog (e : PipelineError)
  | success (score : Rat) (label : Bool)
deriving DecidableEq

/-- Full effect of one predict_single_molecule call: the outcome plus
whether the featurization and inference stages were reached, and the
state after the call. -/
structure SingleRun where
  outcome : SingleOutcome
  featurizer_invoked : Bool
  inference_invoked : Bool
  state : AppState

/-- predict_single_molecule, lines 672-734.  Guard order as in the
source: the empty-input check (line 676) precedes the model check (line
680); with a model present, featurization, inference and extraction run
inside the top-level try, and a success is added to the history with
confidence 0.95 and displayed with the 0.5-threshold label. -/
def predict_single_molecule (st : AppState) (inp : InputString) : SingleRun :=
  match inp with
  | InputString.blank =>
      { outcome := SingleOutcome.emptyInputWarning, featurizer_invoked := false,
        inference_invoked := false, state := st }
  | InputString.mol s =>
      match st.model with
      | none =>
          { outcome := SingleOutcome.modelNotLoaded, featurizer_invoked := false,
            inference_invoked := false, state := st }
      | some m =>
          match build_datapoint_single s with
          | Except.error e =>
              { outcome := SingleOutcome.errorDialog e, featurizer_invoked := true,
                inference_invoked := false, state := st }
          | Except.ok dp =>
              match m dp with
              | Except.error _ =>
                  { outcome := SingleOutcome.errorDialog PipelineError.inferenceExc,
                    featurizer_invoked := true, inference_invoked := true, state := st }
              | Except.ok raw =>
                  let v := extract_prediction_value raw
                  { outcome := SingleOutcome.success v (decide (v > 1/2)),
                    featurizer_invoked := true, inference_invoked := true,
                    state := add_to_history st s (PredValue.score v) (95/100) }

/-- unload_model, lines 631-640: set self.model to None (button states,
labels and the info panel are presentation only). -/
def unload_model (st : AppState) : AppState :=
  { st with model := none }

/-- clear_history, lines 981-985: self.prediction_history.clear(). -/
def clear_history (st : AppState) : AppState :=
  { st with history := [] }

/-- The python slice l[-n:] on a list: the last n elements (the whole
list when it is shorter than n). -/
def py_slice_last {α : Type} (n : Nat) (l : List α) : List α :=
  l.drop (l.length - n)

/-- The rows rendered by update_history_display, line 968: the slice
self.prediction_history[-20:], most recent twenty entries. -/
def update_history_display_rows (history : List HistoryEntry) : List HistoryEntry :=
  py_slice_last 20 history

/-- Modelled from the spec: the get_history(limit) query of the external
interface list (section 6), which is absent as a named function in the
source; the source exposes only its limit-20 instance through
update_history_display. -/
def get_history (limit : Nat) (st : AppState) : List HistoryEntry :=
  py_slice_last limit st.history

/-- One row of the exported CSV: the four columns timestamp, smiles,
prediction, confidence, in the key order of the history dicts that
pd.DataFrame preserves. -/
def export_rows (history : List HistoryEntry) :
    List (Nat × Smiles × PredValue × Rat) :=
  history.map (fun e => (e.timestamp, e.smiles, e.prediction, e.confidence))

/-- The destination chosen in the save dialog of export_history: whether
df.to_csv on that path succeeds. -/
structure ExportSink where
  writable : Bool
deriving DecidableEq, Inhabited

/-- Observable outcome of export_history: the no-history warning dialog,
a cancelled file dialog, a written file holding the given rows, or an
exception escaping the method (df.to_csv has no surrounding handler). -/
inductive ExportOutcome
  | noHistoryWarning
  | cancelled
  | exported (rows : List HistoryEntry)
  | unhandledExc
deriving DecidableEq

/-- export_history, lines 987-1004: warn and return on empty history,
return on a cancelled dialog, otherwise build a DataFrame from the whole
history and call df.to_csv.  No try/except surrounds the write, so a
failing write raises out of the method. -/
def export_history (hist : List HistoryEntry) (chosen : Option ExportSink) :
    ExportOutcome :=
  if hist.isEmpty then ExportOutcome.noHistoryWarning
  else
    match chosen with
    | none => ExportOutcome.cancelled
    | some sink =>
        if sink.writable then ExportOutcome.exported hist
        else ExportOutcome.unhandledExc

/-- Whether an export outcome is a typed result handed back to the
caller, as opposed to an exception escaping the operation. -/
def typed_export_outcome : ExportOutcome → Bool
  | ExportOutcome.unhandledExc => false
  | _ => true

/-- A model whose inference always yields the directly convertible value
0.7, used as a concrete witness handle. -/
def constModel : ModelHandle := fun _ => Except.ok (RawOutput.pyfloat (7/10))

/-- A string both parsers accept. -/
def goodSmiles : Smiles := { fromSmi := FeatOutcome.ok, rdkitOk := true }

/-- A string on which from_smi raises a non-TypeError parse exception. -/
def badSmiles : Smiles := { fromSmi := FeatOutcome.parseErr, rdkitOk := false }

/-- A string no parser accepts, with from_smi raising TypeError: the
fallback chain ends by forcing it onto a blank datapoint. -/
def forcedSmiles : Smiles := { fromSmi := FeatOutcome.typeErr, rdkitOk := false }

/-- Fresh state with no model and no history. -/
def emptyState : AppState := { model := none, history := [], clock := 0 }

/-- State with the witness model loaded and no history. -/
def loadedState : AppState := { model := some constModel, history := [], clock := 0 }

/-- A concrete history entry for witness statements. -/
def sampleEntry : HistoryEntry :=
  { timestamp := 0, smiles := goodSmiles, prediction := PredValue.score (7/10),
    confidence := 95/100 }

/-- A destination df.to_csv writes successfully. -/
def writableSink : ExportSink := { writable := true }

/-- A destination df.to_csv raises on. -/
def unwritableSink : ExportSink := { writable := false }

theorem predict_item_cases (m : ModelHandle) (s : Smiles) :
    predict_item m s = error_record s
    ∨ ∃ v : Rat, predict_item m s =
        { smiles := s, prediction := PredValue.score v, confidence := 95/100,
          is_antibiotic := decide (v > 1/2) } := by
  cases hb : build_datapoint_batch s with
  | error e => exact Or.inl (by simp [predict_item, hb])
  | ok dp =>
    cases hr : m dp with
    | error u => exact Or.inl (by simp [predict_item, hb, hr])
    | ok raw =>
        exact Or.inr ⟨extract_prediction_value raw, by simp [predict_item, hb, hr]⟩

theorem predict_item_of_fails (m : ModelHandle) (s : Smiles)
    (h : item_fails m s = true) : predict_item m s = error_record s := by
  cases hb : build_datapoint_batch s with
  | error e => simp [predict_item, hb]
  | ok dp =>
    cases hr : m dp with
    | error u => simp [predict_item, hb, hr]
    | ok raw => simp [item_fails, hb, hr] at h

theorem success_record_confidence (m : ModelHandle) (s : Smiles)
    (h : is_success_record (predict_item m s) = true) :
    (predict_item m s).confidence = 95/100 := by
  rcases predict_item_cases m s with hc | ⟨v, hc⟩
  · rw [hc] at h
    simp [is_success_record, error_record] at h
  · rw [hc]

theorem append_success_records_length (preds : List PredRecord) :
    ∀ st : AppState,
      (append_success_records st preds).history.length
        = st.history.length + (preds.filter is_success_record).length := by
  induction preds with
  | nil => intro st; simp [append_success_records]
  | cons p ps ih =>
    intro st
    cases hp : is_success_record p with
    | true =>
        rw [show append_success_records st (p :: ps)
              = append_success_records
                  (add_to_history st p.smiles p.prediction p.confidence) ps by
            simp [append_success_records, hp]]
        rw [ih, List.filter_cons_of_pos hp]
        simp [add_to_history]
        omega
    | false =>
        rw [show append_success_records st (p :: ps) = append_success_records st ps by
            simp [append_success_records, hp]]
        rw [ih, List.filter_cons_of_neg (by simp [hp])]

theorem append_success_records_mem (preds : List PredRecord) :
    ∀ (st : AppState) (e : HistoryEntry),
      e ∈ (append_success_records st preds).history →
      e ∈ st.history
      ∨ ∃ p : PredRecord, p ∈ preds ∧ is_success_record p = true
          ∧ e.smiles = p.smiles ∧ e.prediction = p.prediction
          ∧ e.confidence = p.confidence := by
  induction preds with
  | nil => intro st e he; exact Or.inl (by simpa [append_success_records] using he)
  | cons p ps ih =>
    intro st e he
    cases hp : is_success_record p with
    | true =>
        rw [show append_success_records st (p :: ps)
              = append_success_records
                  (add_to_history st p.smiles p.prediction p.confidence) ps by
            simp [append_success_records, hp]] at he
        rcases ih _ e he with hmem | ⟨q, hq, hqs, h1, h2, h3⟩
        · have hmem2 : e ∈ st.history
              ∨ e = { timestamp := st.clock, smiles := p.smiles,
                      prediction := p.prediction, confidence := p.confidence } := by
            simpa [add_to_history] using hmem
          rcases hmem2 with hl | hr
          · exact Or.inl hl
          · exact Or.inr ⟨p, List.mem_cons_self p ps, hp,
              by rw [hr], by rw [hr], by rw [hr]⟩
        · exact Or.inr ⟨q, List.mem_cons_of_mem p hq, hqs, h1, h2, h3⟩
    | false =>
        rw [show append_success_records st (p :: ps) = append_success_records st ps by
            simp [append_success_records, hp]] at he
        rcases ih st e he with hmem | ⟨q, hq, hqs, h1, h2, h3⟩
        · exact Or.inl hmem
        · exact Or.inr ⟨q, List.mem_cons_of_mem p hq, hqs, h1, h2, h3⟩

theorem predict_single_state_cases (st : AppState) (inp : InputString) :
    (predict_single_molecule st inp).state = st
    ∨ ∃ (s : Smiles) (v : Rat),
        (predict_single_molecule st inp).state
          = add_to_history st s (PredValue.score v) (95/100) := by
  cases inp with
  | blank => exact Or.inl rfl
  | mol s =>
    cases hm : st.model with
    | none => exact Or.inl (by simp [predict_single_molecule, hm])
    | some m =>
      cases hb : build_datapoint_single s with
      | error e => exact Or.inl (by simp [predict_single_molecule, hm, hb])
      | ok dp =>
        cases hr : m dp with
        | error u => exact Or.inl (by simp [predict_single_molecule, hm, hb, hr])
        | ok raw =>
            exact Or.inr ⟨s, extract_prediction_value raw,
              by simp [predict_single_molecule, hm, hb, hr]⟩

theorem predict_single_success_label (st : AppState) (inp : InputString)
    (v : Rat) (b : Bool)
    (h : (predict_single_molecule st inp).outcome = SingleOutcome.success v b) :
    b = decide (v > 1/2) := by
  cases inp with
  | blank => simp [predict_single_molecule] at h
  | mol s =>
    cases hm : st.model with
    | none => simp [predict_single_molecule, hm] at h
    | some m =>
      cases hb : build_datapoint_single s with
      | error e => simp [predict_single_molecule, hm, hb] at h
      | ok dp =>
        cases hr : m dp with
        | error u => simp [predict_single_molecule, hm, hb, hr] at h
        | ok raw =>
            simp [predict_single_molecule, hm, hb, hr] at h
            rcases h with ⟨h1, h2⟩
            rw [← h2, h1, decide_eq_decide]
            norm_num

/-- Claim C1: false on the code.  A molecule string no parser accepts,
whose from_smi call raises TypeError, does not make featurization fail
with a propagating error: the fallback chain of run_prediction lines
797-811 catches the failure and forces the unparsed string onto a blank
datapoint, and the item then completes as an untagged successful
prediction instead of carrying any featurization error. -/
theorem c1_parse_failure_silently_forced :
    build_datapoint_batch forcedSmiles = Except.ok (Datapoint.forced forcedSmiles)
    ∧ (predict_item constModel forcedSmiles).prediction = PredValue.score (7/10)
    ∧ item_fails constModel forcedSmiles = false := by
  refine ⟨rfl, rfl, rfl⟩

/-- Claim C2: false on the code.  When the try block of
_extract_prediction_value raises (here: a value float() cannot convert,
likewise an empty sequence), the function does not return an error to the
caller: it returns the plain default 0.5, which is exactly the value a
genuine model output of 0.5 also produces, so the caller cannot tell the
fabricated score from a real one. -/
theorem c2_extraction_silent_default :
    extract_fails RawOutput.nonconvertible = true
    ∧ extract_prediction_value RawOutput.nonconvertible = 1/2
    ∧ extract_fails (RawOutput.pyseq []) = true
    ∧ extract_prediction_value (RawOutput.pyseq []) = 1/2
    ∧ extract_fails (RawOutput.pyfloat (1/2)) = false
    ∧ extract_prediction_value (RawOutput.pyfloat (1/2)) = 1/2 := by
  refine ⟨rfl, rfl, rfl, rfl, rfl, rfl⟩

/-- Claim C3: confirmed.  The batch loop returns one record per input in
input order: the result list has the input length, the record at every
index is the loop body applied to the input at that index alone, a
record is unaffected by changes to the other inputs, and an item whose
stages raise yields exactly the ERROR record at its own index. -/
theorem c3_batch_isolation (m : ModelHandle) (L : List Smiles) :
    (run_prediction_core m L).length = L.length
    ∧ (∀ i : Nat, (run_prediction_core m L)[i]? = (L[i]?).map (predict_item m))
    ∧ (∀ (L2 : List Smiles) (i : Nat), L[i]? = L2[i]? →
        (run_prediction_core m L)[i]? = (run_prediction_core m L2)[i]?)
    ∧ ∀ (i : Nat) (s : Smiles), L[i]? = some s → item_fails m s = true →
        (run_prediction_core m L)[i]? = some (error_record s) := by
  refine ⟨by simp [run_prediction_core], ?_, ?_, ?_⟩
  · intro i
    exact List.getElem?_map (predict_item m) L i
  · intro L2 i h
    simp only [run_prediction_core]
    rw [List.getElem?_map (predict_item m) L i,
      List.getElem?_map (predict_item m) L2 i, h]
  · intro i s hs hf
    simp only [run_prediction_core]
    rw [List.getElem?_map (predict_item m) L i, hs]
    simp [predict_item_of_fails m s hf]

/-- Witness for claim C3 at a concrete batch: in the two-item batch of a
good string followed by a failing string, index 1 carries exactly the
ERROR record. -/
theorem c3_batch_isolation_witness :
    (run_prediction_core constModel [goodSmiles, badSmiles])[1]?
      = some (error_record badSmiles) :=
  (c3_batch_isolation constModel [goodSmiles, badSmiles]).2.2.2 1 badSmiles
    (by decide) (by decide)

/-- Claim C4: confirmed.  The history grows by exactly the number of
non-ERROR records of the batch, and every history entry after the batch
is either an old entry or carries the fields of some non-ERROR record of
the batch, so error-tagged items are never appended. -/
theorem c4_history_only_successes (m : ModelHandle) (st : AppState) (L : List Smiles) :
    ((run_prediction m st L).1).history.length
      = st.history.length + (((run_prediction m st L).2).filter is_success_record).length
    ∧ ∀ e : HistoryEntry, e ∈ ((run_prediction m st L).1).history →
        e ∈ st.history
        ∨ ∃ p : PredRecord, p ∈ (run_prediction m st L).2
            ∧ is_success_record p = true ∧ e.smiles = p.smiles
            ∧ e.prediction = p.prediction ∧ e.confidence = p.confidence := by
  constructor
  · exact append_success_records_length (run_prediction_core m L) st
  · intro e he
    exact append_success_records_mem (run_prediction_core m L) st e he

/-- Witness for claim C4 at the concrete scenario of one successful and
one failed item starting from an empty history: exactly one entry. -/
theorem c4_history_only_successes_witness :
    ((run_prediction constModel emptyState [goodSmiles, badSmiles]).1).history.length = 1 := by
  have h := (c4_history_only_successes constModel emptyState [goodSmiles, badSmiles]).1
  rw [h]
  decide

/-- Claim C5: false on the code for export_history.  With a nonempty
history and a destination df.to_csv cannot write, export_history raises
out of the operation: lines 1000-1004 wrap the write in no handler, so
the failure is not returned as a typed error. -/
theorem c5_export_unhandled_fault :
    export_history [sampleEntry] (some unwritableSink) = ExportOutcome.unhandledExc
    ∧ typed_export_outcome (export_history [sampleEntry] (some unwritableSink)) = false := by
  refine ⟨rfl, rfl⟩

/-- Counterexample to claim C6 as stated: after unload_model, a
prediction on the input that strips to the empty string fails with the
empty-input warning of line 676, not with the model-not-loaded error,
because the empty-input check precedes the model check. -/
theorem c6_counterexample :
    (predict_single_molecule (unload_model loadedState) InputString.blank).outcome
        = SingleOutcome.emptyInputWarning
    ∧ (predict_single_molecule (unload_model loadedState) InputString.blank).outcome
        ≠ SingleOutcome.modelNotLoaded := by
  refine ⟨rfl, by decide⟩

/-- Claim C6 as amended: after unload_model from any prior state, a
single prediction on any input that is nonempty after whitespace
stripping always fails with the model-not-loaded error, and for every
input (including the empty one, which fails with the empty-input warning
instead) neither featurization nor inference is ever invoked. -/
theorem c6_unload_blocks_prediction (st : AppState) (inp : InputString) :
    (predict_single_molecule (unload_model st) inp).featurizer_invoked = false
    ∧ (predict_single_molecule (unload_model st) inp).inference_invoked = false
    ∧ ∀ s : Smiles, inp = InputString.mol s →
        (predict_single_molecule (unload_model st) inp).outcome
          = SingleOutcome.modelNotLoaded := by
  cases inp with
  | blank => exact ⟨rfl, rfl, fun s h => nomatch h⟩
  | mol s0 => exact ⟨rfl, rfl, fun s h => rfl⟩

/-- Witness for the amended claim C6 at a concrete state and input. -/
theorem c6_unload_blocks_prediction_witness :
    (predict_single_molecule (unload_model loadedState)
        (InputString.mol goodSmiles)).outcome = SingleOutcome.modelNotLoaded :=
  (c6_unload_blocks_prediction loadedState (InputString.mol goodSmiles)).2.2
    goodSmiles rfl

/-- Claim C7: confirmed.  On a nonempty history and a writable
destination, export_history writes the complete log (every entry, in
insertion order, one four-column row per entry, so the row count equals
the entry count), while the viewer-facing display renders the slice of
at most the last twenty entries. -/
theorem c7_export_complete_display_truncated (hist : List HistoryEntry)
    (sink : ExportSink) (hne : hist ≠ []) (hw : sink.writable = true) :
    export_history hist (some sink) = ExportOutcome.exported hist
    ∧ (export_rows hist).length = hist.length
    ∧ (update_history_display_rows hist).length ≤ 20
    ∧ (update_history_display_rows hist).IsSuffix hist := by
  refine ⟨?_, by simp [export_rows], ?_, List.drop_suffix _ _⟩
  · cases hist with
    | nil => exact absurd rfl hne
    | cons a t => simp [export_history, hw]
  · have h : (update_history_display_rows hist).length
        = hist.length - (hist.length - 20) := by
      simp [update_history_display_rows, py_slice_last]
    omega

/-- Witness for claim C7 at a concrete one-entry history and a writable
destination. -/
theorem c7_export_complete_witness :
    export_history [sampleEntry] (some writableSink)
      = ExportOutcome.exported [sampleEntry] :=
  (c7_export_complete_display_truncated [sampleEntry] writableSink
    (by decide) rfl).1

/-- Claim C8: confirmed.  For every batch record carrying a score, the
is_antibiotic label holds exactly when the score exceeds 0.5 (so a score
of exactly 0.5 is classified negative), and the label displayed by the
single-molecule path obeys the same strict threshold. -/
theorem c8_label_is_threshold (m : ModelHandle) (s : Smiles)
    (st : AppState) (inp : InputString) :
    (∀ v : Rat, (predict_item m s).prediction = PredValue.score v →
        ((predict_item m s).is_antibiotic = true ↔ v > 1/2))
    ∧ ∀ (v : Rat) (b : Bool),
        (predict_single_molecule st inp).outcome = SingleOutcome.success v b →
        (b = true ↔ v > 1/2) := by
  constructor
  · intro v hv
    rcases predict_item_cases m s with hc | ⟨w, hc⟩
    · rw [hc] at hv
      simp [error_record] at hv
    · rw [hc] at hv ⊢
      simp at hv ⊢
      rw [hv]
  · intro v b hb
    rw [predict_single_success_label st inp v b hb]
    simp

/-- Witness for claim C8: the concrete model output 0.7 exceeds the
threshold, so the record is labelled antibiotic. -/
theorem c8_label_is_threshold_witness :
    (predict_item constModel goodSmiles).is_antibiotic = true := by
  have h := (c8_label_is_threshold constModel goodSmiles loadedState
    (InputString.mol goodSmiles)).1 (7/10) rfl
  exact h.mpr (by norm_num)

/-- Claim C9: confirmed.  After any batch of predictions on top of any
prior state, clear_history leaves the empty log, and querying the history
with any limit afterwards returns the empty list. -/
theorem c9_clear_empties_unconditionally (m : ModelHandle) (st : AppState)
    (L : List Smiles) (limit : Nat) :
    (clear_history (run_prediction m st L).1).history = []
    ∧ get_history limit (clear_history (run_prediction m st L).1) = [] := by
  constructor
  · rfl
  · simp [get_history, clear_history, py_slice_last]

/-- Claim C10: confirmed.  Every batch record carrying a score has
confidence exactly 0.95 whatever the model and the input, and every
history entry appended by a batch or by the single-molecule path has
confidence exactly 0.95. -/
theorem c10_confidence_hardcoded (m : ModelHandle) (st : AppState)
    (L : List Smiles) (inp : InputString) :
    (∀ (s : Smiles) (v : Rat), (predict_item m s).prediction = PredValue.score v →
        (predict_item m s).confidence = 95/100)
    ∧ (∀ e : HistoryEntry, e ∈ ((run_prediction m st L).1).history →
        e ∈ st.history ∨ e.confidence = 95/100)
    ∧ ∀ e : HistoryEntry, e ∈ (predict_single_molecule st inp).state.history →
        e ∈ st.history ∨ e.confidence = 95/100 := by
  refine ⟨?_, ?_, ?_⟩
  · intro s v hv
    apply success_record_confidence
    simp [is_success_record, hv]
  · intro e he
    rcases append_success_records_mem (run_prediction_core m L) st e he with
      hmem | ⟨p, hp, hps, _, _, h3⟩
    · exact Or.inl hmem
    · rcases List.mem_map.mp hp with ⟨s, _, hsp⟩
      refine Or.inr ?_
      rw [h3, ← hsp]
      exact success_record_confidence m s (by rw [hsp]; exact hps)
  · intro e he
    rcases predict_single_state_cases st inp with hst | ⟨s, v, hst⟩
    · rw [hst] at he
      exact Or.inl he
    · rw [hst] at he
      have he2 : e ∈ st.history
          ∨ e = { timestamp := st.clock, smiles := s,
                  prediction := PredValue.score v, confidence := 95/100 } := by
        simpa [add_to_history] using he
      rcases he2 with hl | hr
      · exact Or.inl hl
      · exact Or.inr (by rw [hr])

/-- Witness for claim C10: the concrete successful batch record built
from the witness model and a good string has confidence 0.95. -/
theorem c10_confidence_hardcoded_witness :
    (predict_item constModel goodSmiles).confidence = 95/100 :=
  (c10_confidence_hardcoded constModel loadedState []
    (InputString.mol goodSmiles)).1 goodSmiles (7/10) rfl
